import Mathlib

/-!
Verification of the FlowKey Mermaid-diagram generation pipeline.

This file gives a shallow embedding of the diagram-generation core of the
repository — `src/config/workflow.ts` (prompt templates, validator, cleaner,
user messages) and `src/lib/gemini.ts` (retry orchestrator, attempt executor,
error mapping) — and proves properties of it.

JS strings are modelled as Lean `String`, operated on through their `.data`
character lists.  JS `Error` values are modelled by their message strings.
The streaming network backend plus its per-attempt timeout race is modelled
by an oracle `backend : Nat → String → BackendOutcome` giving, for each
attempt number and prompt, either the accumulated response text or the
message of the error the awaited request settled with (upstream rejection or
timeout).
-/

set_option autoImplicit false

/-! ### Chat data model (src/types/chat.ts)

`ChatMessageRole = 'user' | 'assistant' | 'system' | 'mermaid'`.  The
pipeline reads only the `role` and `content` fields of a message; `id`,
`timestamp` and `metadata` never influence it and are omitted. -/

inductive ChatRole where
  | user
  | assistant
  | system
  | mermaid
deriving DecidableEq, Repr

/-- The string a role interpolates to in a JS template literal. -/
def ChatRole.name : ChatRole → String
  | .user => "user"
  | .assistant => "assistant"
  | .system => "system"
  | .mermaid => "mermaid"

structure ChatMessage where
  role : ChatRole
  content : String
deriving DecidableEq, Repr

/-! ### String primitives

JS `String.prototype.trim` / the regex class `\s` treat the ASCII whitespace
characters (space, tab, newline, carriage return, vertical tab, form feed)
as whitespace; the exotic Unicode space characters never occur in the
strings this pipeline manipulates and are not modelled. -/

def isWsChar (c : Char) : Bool :=
  c = ' ' || c = '\t' || c = '\n' || c = '\r' || c = Char.ofNat 11 || c = Char.ofNat 12

/-- Line terminators: what the JS regex `.` refuses to match and what `^`/`$`
with the `m` flag anchor around. -/
def isNlChar (c : Char) : Bool :=
  c = '\n' || c = '\r'

/-- `l` with leading JS-whitespace removed. -/
def trimLeftChars (l : List Char) : List Char :=
  l.dropWhile isWsChar

/-- JS `String.prototype.trim` on a character list. -/
def trimChars (l : List Char) : List Char :=
  ((l.dropWhile isWsChar).reverse.dropWhile isWsChar).reverse

/-- JS `String.prototype.trim`. -/
def strTrim (s : String) : String :=
  String.mk (trimChars s.data)

/-- JS `String.prototype.toLowerCase` (ASCII fragment, which covers every
string it is applied to here). -/
def lowerChars (l : List Char) : List Char :=
  l.map Char.toLower

/-- JS `String.prototype.includes pat` on character lists. -/
def listHasSub (pat : List Char) : List Char → Bool
  | [] => pat.isEmpty
  | c :: cs => pat.isPrefixOf (c :: cs) || listHasSub pat cs

/-! ### Configuration (src/config/workflow.ts, `mermaidGenerationConfig`) -/

structure MermaidGenerationConfig where
  maxRetryAttempts : Nat
  generationTimeoutMs : Nat
  validDiagramTypes : List String
  minScriptLength : Nat
  maxScriptLength : Nat

def mermaidGenerationConfig : MermaidGenerationConfig where
  maxRetryAttempts := 3
  generationTimeoutMs := 30000
  validDiagramTypes :=
    ["graph", "flowchart", "sequenceDiagram", "classDiagram",
     "stateDiagram", "erDiagram", "journey", "gantt",
     "pie", "quadrantChart", "requirement", "gitgraph",
     "mindmap", "timeline", "zenuml", "sankey"]
  minScriptLength := 20
  maxScriptLength := 5000

/-! ### User-facing messages (src/config/workflow.ts, `userMessages`) -/

structure UserMessages where
  generationStarted : String
  retryingGeneration : String
  generationSuccess : String
  noDiagramPossible : String
  generationFailed : String
  validationFailed : String
  authenticationError : String
  rateLimitError : String
  networkError : String
  timeoutError : String
  noContentError : String

def userMessages : UserMessages where
  generationStarted := "Generating workflow diagram..."
  retryingGeneration := "Retrying with simplified approach..."
  generationSuccess := "Workflow diagram generated successfully!"
  noDiagramPossible := "Unable to create a meaningful workflow diagram from this conversation. Please try discussing specific processes or steps."
  generationFailed := "Failed to generate workflow diagram. Please try again."
  validationFailed := "Generated diagram contains syntax errors and cannot be displayed."
  authenticationError := "Authentication failed. Please check your API configuration."
  rateLimitError := "Rate limit exceeded. Please wait a moment before trying again."
  networkError := "Network error occurred. Please check your connection and try again."
  timeoutError := "Diagram generation timed out. Please try again with a simpler request."
  noContentError := "No conversation content available for diagram generation."

/-- `Object.values(userMessages)`, in property insertion order. -/
def userMessagesList : List String :=
  [userMessages.generationStarted, userMessages.retryingGeneration,
   userMessages.generationSuccess, userMessages.noDiagramPossible,
   userMessages.generationFailed, userMessages.validationFailed,
   userMessages.authenticationError, userMessages.rateLimitError,
   userMessages.networkError, userMessages.timeoutError,
   userMessages.noContentError]

/-! ### Prompt templates (src/config/workflow.ts, `promptTemplates`) -/

def promptTemplates.primary (conversation : String) : String :=
  "Generate a valid Mermaid diagram script based on this conversation.\n\nCRITICAL REQUIREMENTS:\n1. Start with a valid diagram type: flowchart TD, graph LR, sequenceDiagram, etc.\n2. Use square brackets for all node labels: NodeName[Description]\n3. Use proper arrow syntax: A --> B or A -- label --> B\n4. No spaces in node IDs (use camelCase or underscores)\n5. All brackets must be balanced\n6. Use %% for comments (separate lines only)\n7. No HTML tags or markdown in labels\n\nRETURN ONLY the raw Mermaid script, nothing else.\nIf no meaningful diagram can be created, return: NO_DIAGRAM\n\nConversation:\n" ++ conversation

def promptTemplates.secondary (conversation : String) : String :=
  "Create a simple Mermaid flowchart for this conversation:\n\n" ++ conversation ++ "\n\nRequirements:\n- Start with: flowchart TD\n- Use format: NodeName[Description] --> OtherNode[Description]\n- Keep it simple and focused\n- Return only the Mermaid script or NO_DIAGRAM"

def promptTemplates.fallback (conversation : String) : String :=
  "Generate a basic flowchart showing the main steps discussed:\n\n" ++ conversation ++ "\n\nFormat:\nflowchart TD\n  A[Step 1] --> B[Step 2]\n  \nReturn only valid Mermaid syntax or NO_DIAGRAM"

/-- src/config/workflow.ts, `getPromptForAttempt`: the JS `switch` sends
attempt 1 to the primary template, 2 to the secondary one, and every other
number to the fallback one. -/
def getPromptForAttempt (attemptNumber : Nat) (conversation : String) : String :=
  match attemptNumber with
  | 1 => promptTemplates.primary conversation
  | 2 => promptTemplates.secondary conversation
  | _ => promptTemplates.fallback conversation

/-! ### Script validator (src/config/workflow.ts, `validateMermaidScript`) -/

/-- `trimmed.toLowerCase().startsWith(type.toLowerCase())` for some entry of
`validDiagramTypes`. -/
def startsWithValidType (t : List Char) : Bool :=
  mermaidGenerationConfig.validDiagramTypes.any
    (fun ty => (lowerChars ty.data).isPrefixOf (lowerChars t))

/-- After an opening bracket: is there a closing bracket before any line
terminator?  (The `.` in the JS regex does not cross line terminators.) -/
def closesBeforeNl : List Char → Bool
  | [] => false
  | c :: cs => if c = ']' then true else if isNlChar c then false else closesBeforeNl cs

/-- JS `/\[.*?\]/.test(t)`: some `[` is followed by a `]` on the same line. -/
def hasBracketPair : List Char → Bool
  | [] => false
  | c :: cs => (c = '[' && closesBeforeNl cs) || hasBracketPair cs

/-- JS `/-->|->|<--|<-/.test(t)`: one of the four arrow tokens occurs. -/
def hasArrowToken (t : List Char) : Bool :=
  listHasSub ("-->".data) t || listHasSub ("->".data) t ||
    listHasSub ("<--".data) t || listHasSub ("<-".data) t

/-- After `...`: scanning forward, the first `[` or `]` encountered (if any)
is a `]`.  This is `[^[\]]*?\]` (the negated class crosses newlines). -/
def closeBeforeAnyBracket : List Char → Bool
  | [] => false
  | c :: cs => if c = ']' then true else if c = '[' then false else closeBeforeAnyBracket cs

/-- JS `/\.\.\.[^[\]]*?\]/.test(t)`: an ellipsis followed by a `]` with no
intervening bracket characters ("incomplete node references"). -/
def hasEllipsisRef : List Char → Bool
  | [] => false
  | c :: cs =>
    (c = '.' && ("..".data).isPrefixOf cs && closeBeforeAnyBracket (cs.drop 2)) ||
      hasEllipsisRef cs

/-- After `[`: does `; %%` occur before any line terminator? -/
def semiCommentBeforeNl : List Char → Bool
  | [] => false
  | c :: cs =>
    if ("; %%".data).isPrefixOf (c :: cs) then true
    else if isNlChar c then false
    else semiCommentBeforeNl cs

/-- JS `/\[.*?; %%/.test(t)`: a `[` followed on the same line by `; %%`
("inline comments after brackets"). -/
def hasInlineComment : List Char → Bool
  | [] => false
  | c :: cs => (c = '[' && semiCommentBeforeNl cs) || hasInlineComment cs

/-- Split on line terminators (used to model the `m` flag anchors). -/
def splitLinesChars : List Char → List (List Char)
  | [] => [[]]
  | c :: cs =>
    match splitLinesChars cs with
    | [] => []
    | h :: t => if isNlChar c then [] :: h :: t else (c :: h) :: t

/-- A line matching `^\s*-->`.  (The `\s*` of the JS pattern may span line
terminators, but any such span ends at a line start again, so per-line
leading whitespace is an equivalent reading.) -/
def lineStartsWithArrow (ln : List Char) : Bool :=
  ("-->".data).isPrefixOf (ln.dropWhile isWsChar)

/-- A line matching `<--\s*$`: `<--` whose rest-of-line is whitespace. -/
def lineEndsWithBackArrow : List Char → Bool
  | [] => false
  | c :: cs =>
    (("<--".data).isPrefixOf (c :: cs) && ((c :: cs).drop 3).all isWsChar) ||
      lineEndsWithBackArrow cs

/-- JS `/^\s*-->|<--\s*$/m.test(t)` ("arrows without nodes"); the alternation
groups as `(^\s*-->)|(<--\s*$)`. -/
def hasBareArrowLine (t : List Char) : Bool :=
  (splitLinesChars t).any (fun ln => lineStartsWithArrow ln || lineEndsWithBackArrow ln)

/-- Body of `validateMermaidScript` after the falsy guard, on the raw
character list of the script. -/
def validateChars (l : List Char) : Bool :=
  let trimmed := trimChars l
  if trimmed.length < mermaidGenerationConfig.minScriptLength ||
      trimmed.length > mermaidGenerationConfig.maxScriptLength then
    false
  else if !(startsWithValidType trimmed) then
    false
  else if !(hasBracketPair trimmed) && !(hasArrowToken trimmed) &&
      !(listHasSub ("participant".data) trimmed) && !(listHasSub ("class".data) trimmed) then
    false
  else if !(trimmed.count '[' = trimmed.count ']') then
    false
  else
    !(hasEllipsisRef trimmed || hasInlineComment trimmed || hasBareArrowLine trimmed)

/-- src/config/workflow.ts, `validateMermaidScript`.  `!script` is true
exactly for the empty string (the argument is statically a string, so the
`typeof` test never fires). -/
def validateMermaidScript (script : String) : Bool :=
  if script = "" then false
  else validateChars script.data

/-! ### Script cleaner (src/config/workflow.ts, `cleanMermaidScript`) -/

/-- Executable form of matching
`/^\s*```(?:mermaid)?\s*([\s\S]*?)\s*```\s*$/` against the (already trimmed)
input and replacing it with the trimmed first group when the group is
nonempty.

Derivation from the backtracking semantics: the match is anchored at both
ends; after the opening fence and the greedily consumed optional `mermaid`
tag, the pattern `\s*([\s\S]*?)\s*` absorbs any text, so the match succeeds
exactly when what remains, after discarding trailing whitespace, still ends
in a closing fence; the closing-fence occurrence followed only by whitespace
is unique (whitespace contains no backtick), and the lazy group together
with the greedy `\s*` on each side makes group 1 the enclosed text trimmed
of surrounding whitespace.  `match[1]` is falsy exactly when that trimmed
enclosed text is empty, in which case the code keeps the input. -/
def stripFenceWrap (t : List Char) : List Char :=
  let s1 := t.dropWhile isWsChar
  if ("```".data).isPrefixOf s1 then
    let s2 := s1.drop 3
    let s3 := if ("mermaid".data).isPrefixOf s2 then s2.drop 7 else s2
    let r := (s3.reverse.dropWhile isWsChar)
    if ("```".data).isPrefixOf r then
      let body := trimChars (r.drop 3).reverse
      if body.isEmpty then t else body
    else t
  else t

/-- The apostrophe character (U+0027). -/
def aposChar : Char := Char.ofNat 39

/-- Case-insensitive literal matching: drop `pat` (given in lowercase) from
the front of `l`, or fail.  This is how each literal piece of the
case-insensitive anchored phrase regexes consumes input. -/
def dropCI : List Char → List Char → Option (List Char)
  | [], l => some l
  | _ :: _, [] => none
  | p :: ps, c :: cs => if c.toLower = p then dropCI ps cs else none

/-- Backtracking choice for a regex option group: try each alternative (in
pattern order, the greedy order) followed by the continuation, then the
empty alternative. -/
def tryOpts (alts : List (List Char)) (l : List Char)
    (k : List Char → Option (List Char)) : Option (List Char) :=
  match alts with
  | [] => k l
  | a :: rest =>
    match dropCI a l with
    | some l1 =>
      match k l1 with
      | some r => some r
      | none => tryOpts rest l k
    | none => tryOpts rest l k

/-- Remainder after `/^here'?s?( a| the)? mermaid( diagram| script)?:?\s*/i`,
if it matches. -/
def phraseHeres (l : List Char) : Option (List Char) :=
  match dropCI ("here".data) l with
  | none => none
  | some l1 =>
    tryOpts [[aposChar]] l1 (fun l2 =>
      tryOpts [[ 's' ]] l2 (fun l3 =>
        tryOpts [(" a".data), (" the".data)] l3 (fun l4 =>
          match dropCI (" mermaid".data) l4 with
          | none => none
          | some l5 =>
            tryOpts [(" diagram".data), (" script".data)] l5 (fun l6 =>
              tryOpts [[ ':' ]] l6 (fun l7 =>
                some (l7.dropWhile isWsChar))))))

/-- Remainder after `/^this is( a| the)? mermaid( diagram| script)?:?\s*/i`. -/
def phraseThisIs (l : List Char) : Option (List Char) :=
  match dropCI ("this is".data) l with
  | none => none
  | some l1 =>
    tryOpts [(" a".data), (" the".data)] l1 (fun l2 =>
      match dropCI (" mermaid".data) l2 with
      | none => none
      | some l3 =>
        tryOpts [(" diagram".data), (" script".data)] l3 (fun l4 =>
          tryOpts [[ ':' ]] l4 (fun l5 =>
            some (l5.dropWhile isWsChar))))

/-- Remainder after `/^generated? mermaid( diagram| script)?:?\s*/i`. -/
def phraseGenerated (l : List Char) : Option (List Char) :=
  match dropCI ("generate".data) l with
  | none => none
  | some l1 =>
    tryOpts [[ 'd' ]] l1 (fun l2 =>
      match dropCI (" mermaid".data) l2 with
      | none => none
      | some l3 =>
        tryOpts [(" diagram".data), (" script".data)] l3 (fun l4 =>
          tryOpts [[ ':' ]] l4 (fun l5 =>
            some (l5.dropWhile isWsChar))))

/-- Remainder after `/^workflow( diagram)?:?\s*/i`. -/
def phraseWorkflow (l : List Char) : Option (List Char) :=
  match dropCI ("workflow".data) l with
  | none => none
  | some l1 =>
    tryOpts [(" diagram".data)] l1 (fun l2 =>
      tryOpts [[ ':' ]] l2 (fun l3 =>
        some (l3.dropWhile isWsChar)))

/-- Remainder after `/^diagram:?\s*/i`. -/
def phraseDiagram (l : List Char) : Option (List Char) :=
  match dropCI ("diagram".data) l with
  | none => none
  | some l1 =>
    tryOpts [[ ':' ]] l1 (fun l2 =>
      some (l2.dropWhile isWsChar))

/-- `cleaned.replace(re, '')` for an anchored phrase regex: drop the matched
span if there is one, else keep the string. -/
def applyPhrase (m : List Char → Option (List Char)) (l : List Char) : List Char :=
  match m l with
  | some r => r
  | none => l

/-- The `for (const prefix of prefixesToRemove)` loop, in array order. -/
def stripLeadingPhrases (l : List Char) : List Char :=
  applyPhrase phraseDiagram
    (applyPhrase phraseWorkflow
      (applyPhrase phraseGenerated
        (applyPhrase phraseThisIs
          (applyPhrase phraseHeres l))))

/-- Body of `cleanMermaidScript` after the falsy guard. -/
def cleanChars (l : List Char) : List Char :=
  trimChars (stripLeadingPhrases (stripFenceWrap (trimChars l)))

/-- src/config/workflow.ts, `cleanMermaidScript`. -/
def cleanMermaidScript (rawScript : String) : String :=
  if rawScript = "" then ""
  else String.mk (cleanChars rawScript.data)

/-! ### Backend model and attempt executor (src/lib/gemini.ts) -/

/-- Outcome of one awaited backend call (`Promise.race` of the streaming
accumulation against the timeout): either the accumulated response text, or
the message of the rejection (upstream error or
`userMessages.timeoutError`). -/
inductive BackendOutcome where
  | text (s : String)
  | fail (msg : String)

/-- src/lib/gemini.ts, `attemptMermaidGeneration`: builds the prompt for the
attempt with `getPromptForAttempt`, awaits the backend race, trims the
accumulated text, and rejects an empty (falsy) result. -/
def attemptMermaidGeneration (backend : Nat → String → BackendOutcome)
    (conversationContent : String) (attemptNumber : Nat) : Except String String :=
  let prompt := getPromptForAttempt attemptNumber conversationContent
  match backend attemptNumber prompt with
  | .fail msg => .error msg
  | .text raw =>
    let result := strTrim raw
    if result = "" then .error "Empty response received from Gemini API"
    else .ok result

/-- src/lib/gemini.ts, `handleGeminiApiError`, on an `Error` whose message is
`message` (every error in this model is an `Error` carrying a message). -/
def handleGeminiApiError (message : String) : String :=
  let m := lowerChars message.data
  if listHasSub ("api key".data) m || listHasSub ("authentication".data) m ||
      listHasSub ("unauthorized".data) m then
    userMessages.authenticationError
  else if listHasSub ("rate limit".data) m || listHasSub ("quota".data) m ||
      listHasSub ("too many requests".data) m then
    userMessages.rateLimitError
  else if listHasSub ("network".data) m || listHasSub ("connection".data) m ||
      listHasSub ("timeout".data) m then
    userMessages.networkError
  else
    message

/-- src/lib/gemini.ts, `handleMermaidGenerationError`. -/
def handleMermaidGenerationError (message : String) : String :=
  if userMessagesList.contains message then message
  else handleGeminiApiError message

/-- `message.role === 'user' || message.role === 'assistant'`. -/
def eligibleMessage (m : ChatMessage) : Bool :=
  m.role = ChatRole.user || m.role = ChatRole.assistant

/-- The `conversationContent` string built by the orchestrator:
`` `${message.role}: ${message.content}` `` joined with `"\n\n"`. -/
def conversationContentOf (messages : List ChatMessage) : String :=
  String.intercalate "\n\n"
    ((messages.filter eligibleMessage).map (fun m => m.role.name ++ ": " ++ m.content))

/-- The `for (let attempt = 1; attempt <= maxRetryAttempts; attempt++)` loop
of `generateMermaidScriptFromConversation`, as a recursion on the number of
loop iterations still allowed (`fuel`; the caller passes
`fuel = maxRetryAttempts` with `attempt = 1`, so fuel reaches 0 exactly when
`attempt` passes `maxRetryAttempts` and the unreachable trailing
`throw new Error(userMessages.generationFailed)` runs).  Besides the loop
result it returns how often the attempt executor was invoked. -/
def mermaidRetryLoop (backend : Nat → String → BackendOutcome) (content : String)
    (maxAttempts : Nat) : Nat → Nat → Except String String × Nat
  | _, 0 => (.error userMessages.generationFailed, 0)
  | attempt, fuel + 1 =>
    match attemptMermaidGeneration backend content attempt with
    | .ok script =>
      if script = "NO_DIAGRAM" then (.ok "NO_DIAGRAM", 1)
      else
        let cleanedScript := cleanMermaidScript script
        if validateMermaidScript cleanedScript then (.ok cleanedScript, 1)
        else if attempt = maxAttempts then (.error userMessages.validationFailed, 1)
        else
          let r := mermaidRetryLoop backend content maxAttempts (attempt + 1) fuel
          (r.1, r.2 + 1)
    | .error e =>
      if attempt = maxAttempts then (.error e, 1)
      else
        let r := mermaidRetryLoop backend content maxAttempts (attempt + 1) fuel
        (r.1, r.2 + 1)

/-- src/lib/gemini.ts, `generateMermaidScriptFromConversation`, instrumented
with the number of executor invocations.  `apiKeyValid` is the value of
`validateApiKey()` (an environment read); `backend` is the oracle for the
per-attempt backend calls.  The outer `catch` maps the message of whatever
error escapes through `handleMermaidGenerationError`. -/
def generateMermaidRun (apiKeyValid : Bool) (conversationHistory : List ChatMessage)
    (backend : Nat → String → BackendOutcome) : Except String String × Nat :=
  let inner : Except String String × Nat :=
    if !apiKeyValid then (.error userMessages.authenticationError, 0)
    else if (conversationHistory.filter eligibleMessage).length = 0 then
      (.error userMessages.noContentError, 0)
    else
      mermaidRetryLoop backend (conversationContentOf conversationHistory)
        mermaidGenerationConfig.maxRetryAttempts 1 mermaidGenerationConfig.maxRetryAttempts
  match inner.1 with
  | .ok s => (.ok s, inner.2)
  | .error e => (.error (handleMermaidGenerationError e), inner.2)

/-- The value `generateMermaidScriptFromConversation` settles with: `.ok` a
returned string, `.error` the message of the thrown error. -/
def generateMermaidScriptFromConversation (apiKeyValid : Bool)
    (conversationHistory : List ChatMessage)
    (backend : Nat → String → BackendOutcome) : Except String String :=
  (generateMermaidRun apiKeyValid conversationHistory backend).1

/-! ### Sample data shared by witnesses and counterexamples -/

/-- A concrete script the validator accepts. -/
def sampleScript : String := "flowchart TD\n  A[Step 1] --> B[Step 2]"

/-- 4963 spaces: padding that pushes `sampleScript` past `maxScriptLength`. -/
def longPad : String := String.mk (List.replicate 4963 ' ')

/-- A 5001-character string that trims back down to `sampleScript`. -/
def longScript : String := sampleScript ++ longPad

/-- An attempt whose outcome makes the loop move on to the next attempt:
the executor failed, or the cleaned script failed validation (and the raw
script was not the sentinel). -/
def attemptContinues (backend : Nat → String → BackendOutcome) (content : String)
    (i : Nat) : Bool :=
  match attemptMermaidGeneration backend content i with
  | .error _ => true
  | .ok s => decide (s ≠ "NO_DIAGRAM") && !(validateMermaidScript (cleanMermaidScript s))

/-! ### Fenced-code-block wrapping (C7) -/

/-- A fenced code block around `s` with language tag `tag` (empty tag = no
tag): the wrapping shape a model emits around a Mermaid script. -/
def wrapFence (tag : String) (s : String) : String :=
  "```" ++ tag ++ "\n" ++ s ++ "\n```"

/-! ### Helper lemmas about the string primitives -/

theorem dropWhile_idem (p : Char → Bool) (l : List Char) :
    (l.dropWhile p).dropWhile p = l.dropWhile p := by
  induction l with
  | nil => rfl
  | cons c cs ih =>
    by_cases h : p c
    · simp [List.dropWhile, h, ih]
    · simp [List.dropWhile, h]

theorem dropWhile_head_false (p : Char → Bool) :
    ∀ (l : List Char) (c : Char) (t : List Char), l.dropWhile p = c :: t → p c = false := by
  intro l
  induction l with
  | nil => intro c t h; simp [List.dropWhile] at h
  | cons d ds ih =>
    intro c t h
    by_cases hd : p d
    · exact ih c t (by simpa [List.dropWhile, hd] using h)
    · rw [List.dropWhile_cons_of_neg (by simpa using hd)] at h
      cases h
      simpa using hd

theorem count_dropWhile (p : Char → Bool) (c : Char) (hc : p c = false) :
    ∀ l : List Char, (l.dropWhile p).count c = l.count c := by
  intro l
  induction l with
  | nil => rfl
  | cons d ds ih =>
    by_cases hd : p d
    · have hne : d ≠ c := by intro h; rw [h] at hd; simp [hc] at hd
      simp [List.dropWhile, hd, ih, List.count_cons, hne]
    · simp [List.dropWhile, hd]

theorem count_trimChars (c : Char) (hc : isWsChar c = false) (l : List Char) :
    (trimChars l).count c = l.count c := by
  simp [trimChars, List.count_reverse, count_dropWhile isWsChar c hc]

theorem length_dropWhile_le' (p : Char → Bool) (l : List Char) :
    (l.dropWhile p).length ≤ l.length := by
  induction l with
  | nil => simp
  | cons d ds ih =>
    by_cases hd : p d
    · simp only [List.dropWhile, hd]
      exact Nat.le_succ_of_le ih
    · simp [List.dropWhile, hd]

theorem length_trimChars_le (l : List Char) : (trimChars l).length ≤ l.length := by
  calc (trimChars l).length
      = (((l.dropWhile isWsChar).reverse).dropWhile isWsChar).length := by
        simp [trimChars]
    _ ≤ ((l.dropWhile isWsChar).reverse).length := length_dropWhile_le' _ _
    _ = (l.dropWhile isWsChar).length := by simp
    _ ≤ l.length := length_dropWhile_le' _ _

theorem trimLeft_append_of_eq_nil (l m : List Char) (h : l.dropWhile isWsChar = []) :
    (l ++ m).dropWhile isWsChar = m.dropWhile isWsChar := by
  induction l with
  | nil => simp
  | cons c cs ih =>
    by_cases hc : isWsChar c
    · simp only [List.dropWhile_cons_of_pos (by simpa using hc)] at h
      simpa [List.dropWhile, hc] using ih h
    · simp [List.dropWhile, hc] at h

theorem trimLeft_append_of_ne_nil (l m : List Char) (h : l.dropWhile isWsChar ≠ []) :
    (l ++ m).dropWhile isWsChar = l.dropWhile isWsChar ++ m := by
  induction l with
  | nil => simp at h
  | cons c cs ih =>
    by_cases hc : isWsChar c
    · have h' : cs.dropWhile isWsChar ≠ [] := by
        simpa [List.dropWhile, hc] using h
      simpa [List.dropWhile, hc] using ih h'
    · simp [List.dropWhile, hc]

theorem trimChars_cons_ws (c : Char) (l : List Char) (hc : isWsChar c = true) :
    trimChars (c :: l) = trimChars l := by
  simp [trimChars, List.dropWhile, hc]

theorem trimChars_append_ws (c : Char) (l : List Char) (hc : isWsChar c = true) :
    trimChars (l ++ [c]) = trimChars l := by
  by_cases h : l.dropWhile isWsChar = []
  · rw [trimChars, trimLeft_append_of_eq_nil l [c] h]
    simp [trimChars, h, List.dropWhile, hc]
  · rw [trimChars, trimLeft_append_of_ne_nil l [c] h]
    rw [trimChars]
    rw [List.reverse_append]
    simp [List.dropWhile, hc]

theorem trimChars_eq_self (l : List Char) (c d : Char) (A : List Char)
    (hshape : l = c :: (A ++ [d])) (hc : isWsChar c = false) (hd : isWsChar d = false) :
    trimChars l = l := by
  subst hshape
  rw [trimChars]
  rw [List.dropWhile_cons_of_neg (by simpa using hc)]
  rw [show (c :: (A ++ [d])).reverse = d :: (A.reverse ++ [c]) by simp]
  rw [List.dropWhile_cons_of_neg (by simpa using hd)]
  simp

theorem trimChars_singleton_eq_self (c : Char) (hc : isWsChar c = false) :
    trimChars [c] = [c] := by
  rw [trimChars]
  rw [List.dropWhile_cons_of_neg (by simpa using hc)]
  simp [List.dropWhile, hc]

theorem getLast?_dropWhile (p : Char → Bool) :
    ∀ y : List Char, y.dropWhile p ≠ [] → (y.dropWhile p).getLast? = y.getLast? := by
  intro y
  induction y with
  | nil => intro h; simp at h
  | cons a as ih =>
    intro h
    by_cases ha : p a
    · rw [List.dropWhile_cons_of_pos (by simpa using ha)] at h ⊢
      rw [ih h]
      rcases as with _ | ⟨b, bs⟩
      · simp [List.dropWhile] at h
      · rw [List.getLast?_cons_cons]
    · rw [List.dropWhile_cons_of_neg (by simpa using ha)]

theorem trimChars_idem (l : List Char) : trimChars (trimChars l) = trimChars l := by
  rcases hW : (l.dropWhile isWsChar).reverse.dropWhile isWsChar with _ | ⟨c, t⟩
  · have hnil : trimChars l = [] := by simp [trimChars, hW]
    rw [hnil]
    rfl
  · have hc : isWsChar c = false := dropWhile_head_false isWsChar _ c t hW
    rcases ht : t.reverse with _ | ⟨d, u⟩
    · have ht0 : t = [] := by simpa using congrArg List.reverse ht
      subst ht0
      have hshape : trimChars l = [c] := by simp [trimChars, hW]
      rw [hshape, trimChars_singleton_eq_self c hc]
    · have hshape : trimChars l = d :: (u ++ [c]) := by
        rw [trimChars, hW, List.reverse_cons, ht]
        simp
      have hd : isWsChar d = false := by
        have hlastW : ((c :: t).getLast? : Option Char) = some d := by
          rw [← List.head?_reverse, List.reverse_cons, ht]
          simp
        have hlastY : ((l.dropWhile isWsChar).reverse).getLast? = some d := by
          rw [← getLast?_dropWhile isWsChar _ (by rw [hW]; simp), hW]
          exact hlastW
        have hheadY : (l.dropWhile isWsChar).head? = some d := by
          rw [← List.getLast?_reverse]
          exact hlastY
        rcases hY : l.dropWhile isWsChar with _ | ⟨e, es⟩
        · rw [hY] at hheadY; simp at hheadY
        · rw [hY] at hheadY
          simp at hheadY
          subst hheadY
          exact dropWhile_head_false isWsChar l e es hY
      rw [hshape]
      exact trimChars_eq_self _ d c u rfl hd hc

/-- C10: the validator rejects the sentinel itself (its trimmed length, 10,
is below `minScriptLength`), so the sentinel can never be accepted as a
diagram script. -/
theorem validate_rejects_sentinel : validateMermaidScript "NO_DIAGRAM" = false := by decide

/-- C9: a string whose `[` count differs from its `]` count is never
accepted by `validateMermaidScript`. -/
theorem validate_unbalanced_brackets (s : String)
    (h : s.data.count '[' ≠ s.data.count ']') :
    validateMermaidScript s = false := by
  by_cases hs : s = ""
  · simp [validateMermaidScript, hs]
  · have hcnt : (trimChars s.data).count '[' ≠ (trimChars s.data).count ']' := by
      rw [count_trimChars '[' (by decide) s.data, count_trimChars ']' (by decide) s.data]
      exact h
    rw [validateMermaidScript, if_neg hs]
    simp only [validateChars]
    split
    · rfl
    · split
      · rfl
      · split
        · rfl
        · split
          · rfl
          · next h4 =>
            exfalso
            exact hcnt (by simpa using h4)

/-- C9 witness. -/
theorem validate_unbalanced_brackets_witness :
    validateMermaidScript "flowchart TD [ A --> B" = false :=
  validate_unbalanced_brackets "flowchart TD [ A --> B" (by decide)

/-- C6 (amended): the validator rejects every string whose trimmed length is
below `minScriptLength` or above `maxScriptLength`; for the lower bound the
raw length suffices, since trimming never lengthens a string. -/
theorem validate_length_bounds (s : String)
    (h : (strTrim s).length < mermaidGenerationConfig.minScriptLength ∨
      mermaidGenerationConfig.maxScriptLength < (strTrim s).length ∨
      s.length < mermaidGenerationConfig.minScriptLength) :
    validateMermaidScript s = false := by
  by_cases hs : s = ""
  · simp [validateMermaidScript, hs]
  · have hlen : (trimChars s.data).length < mermaidGenerationConfig.minScriptLength ∨
        mermaidGenerationConfig.maxScriptLength < (trimChars s.data).length := by
      rcases h with h | h | h
      · exact Or.inl h
      · exact Or.inr h
      · left
        calc (trimChars s.data).length ≤ s.data.length := length_trimChars_le _
          _ < mermaidGenerationConfig.minScriptLength := h
    rw [validateMermaidScript, if_neg hs]
    simp only [validateChars]
    rw [if_pos]
    simp only [Bool.or_eq_true, decide_eq_true_eq]
    omega

/-- C6 witness: a short string is rejected. -/
theorem validate_length_bounds_witness : validateMermaidScript "short" = false :=
  validate_length_bounds "short" (by decide)

/-- C6 counterexample to the claim as stated: a string of raw length 5001
(strictly above `maxScriptLength`) that the validator nonetheless accepts,
because the length check runs on the trimmed string. -/
theorem trimChars_append_replicate_ws (c : Char) (hc : isWsChar c = true)
    (l : List Char) : ∀ n, trimChars (l ++ List.replicate n c) = trimChars l := by
  intro n
  induction n with
  | zero => simp
  | succ k ih =>
    have : List.replicate (k + 1) c = List.replicate k c ++ [c] := by
      rw [List.replicate_succ']
    rw [this, ← List.append_assoc, trimChars_append_ws c _ hc, ih]

theorem longScript_length : longScript.length = 5001 := by
  have h1 : longScript.data = sampleScript.data ++ List.replicate 4963 ' ' := rfl
  show longScript.data.length = 5001
  rw [h1, List.length_append, List.length_replicate]
  rfl

theorem longScript_trim : trimChars longScript.data = trimChars sampleScript.data := by
  have hdata : longScript.data = sampleScript.data ++ List.replicate 4963 ' ' := rfl
  rw [hdata, trimChars_append_replicate_ws ' ' (by decide) sampleScript.data 4963]

/-- C6 counterexample to the claim as stated: a string of raw length 5001
(strictly above `maxScriptLength`) that the validator nonetheless accepts,
because the length check runs on the trimmed string. -/
theorem validate_length_bounds_counterexample :
    mermaidGenerationConfig.maxScriptLength < longScript.length ∧
      validateMermaidScript longScript = true := by
  constructor
  · rw [longScript_length]
    decide
  · have hne : longScript ≠ "" := by
      intro h
      have := congrArg String.length h
      rw [longScript_length] at this
      simp at this
    rw [validateMermaidScript, if_neg hne]
    simp only [validateChars, longScript_trim]
    decide

/-- C4: a conversation with no user/assistant messages fails with the
`noContentError` message before any executor invocation. -/
theorem orchestrator_no_content (hist : List ChatMessage)
    (backend : Nat → String → BackendOutcome)
    (h : ∀ m ∈ hist, eligibleMessage m = false) :
    generateMermaidRun true hist backend = (.error userMessages.noContentError, 0) := by
  have hf : hist.filter eligibleMessage = [] := by
    rw [List.filter_eq_nil_iff]
    intro a ha
    simp [h a ha]
  simp [generateMermaidRun, hf]
  rfl

/-- C4 witness. -/
theorem orchestrator_no_content_witness :
    generateMermaidRun true [⟨ChatRole.system, "sys"⟩, ⟨ChatRole.mermaid, "m"⟩]
      (fun _ _ => .text "flowchart") = (.error userMessages.noContentError, 0) :=
  orchestrator_no_content _ _ (by
    intro m hm
    simp only [List.mem_cons, List.not_mem_nil, or_false] at hm
    rcases hm with rfl | rfl <;> decide)

/-! ### Retry-loop lemmas -/

/-- Any `.ok` result of the retry loop is the sentinel or a validated
cleaned script. -/
theorem retryLoop_ok_inv (backend : Nat → String → BackendOutcome) (content : String)
    (maxA : Nat) : ∀ fuel attempt s,
    (mermaidRetryLoop backend content maxA attempt fuel).1 = .ok s →
    s = "NO_DIAGRAM" ∨ validateMermaidScript s = true := by
  intro fuel
  induction fuel with
  | zero => intro attempt s h; simp [mermaidRetryLoop] at h
  | succ k ih =>
    intro attempt s h
    simp only [mermaidRetryLoop] at h
    cases hA : attemptMermaidGeneration backend content attempt with
    | ok script =>
      rw [hA] at h
      dsimp only at h
      by_cases hs : script = "NO_DIAGRAM"
      · rw [if_pos hs] at h
        simp at h
        exact Or.inl h.symm
      · rw [if_neg hs] at h
        by_cases hv : validateMermaidScript (cleanMermaidScript script) = true
        · rw [if_pos hv] at h
          simp at h
          exact Or.inr (h ▸ hv)
        · rw [if_neg hv] at h
          by_cases hm : attempt = maxA
          · rw [if_pos hm] at h; simp at h
          · rw [if_neg hm] at h
            exact ih (attempt + 1) s (by simpa using h)
    | error e =>
      rw [hA] at h
      dsimp only at h
      by_cases hm : attempt = maxA
      · rw [if_pos hm] at h; simp at h
      · rw [if_neg hm] at h
        exact ih (attempt + 1) s (by simpa using h)

theorem retryLoop_step_continue (backend : Nat → String → BackendOutcome)
    (content : String) (maxA attempt fuel : Nat)
    (hcont : attemptContinues backend content attempt = true)
    (hlt : attempt ≠ maxA) :
    mermaidRetryLoop backend content maxA attempt (fuel + 1) =
      ((mermaidRetryLoop backend content maxA (attempt + 1) fuel).1,
        (mermaidRetryLoop backend content maxA (attempt + 1) fuel).2 + 1) := by
  simp only [mermaidRetryLoop]
  cases hA : attemptMermaidGeneration backend content attempt with
  | error e => simp [hlt]
  | ok s =>
    unfold attemptContinues at hcont
    rw [hA] at hcont
    simp only [Bool.and_eq_true, decide_eq_true_eq, Bool.not_eq_true'] at hcont
    obtain ⟨hs, hv⟩ := hcont
    simp [hs, hv, hlt]

theorem retryLoop_sentinel (backend : Nat → String → BackendOutcome)
    (content : String) (maxA attempt fuel : Nat)
    (h : attemptMermaidGeneration backend content attempt = .ok "NO_DIAGRAM") :
    mermaidRetryLoop backend content maxA attempt (fuel + 1) = (.ok "NO_DIAGRAM", 1) := by
  simp [mermaidRetryLoop, h]

theorem retryLoop_final_error (backend : Nat → String → BackendOutcome)
    (content : String) (maxA fuel : Nat) (e : String)
    (h : attemptMermaidGeneration backend content maxA = .error e) :
    mermaidRetryLoop backend content maxA maxA (fuel + 1) = (.error e, 1) := by
  simp [mermaidRetryLoop, h]

/-- Unfolding `generateMermaidRun` when the key is valid and the history has
eligible messages, for a loop run ending in `.ok`. -/
theorem generateRun_eligible_ok (hist : List ChatMessage)
    (backend : Nat → String → BackendOutcome) (s : String) (n : Nat)
    (hne : (hist.filter eligibleMessage).length ≠ 0)
    (hl : mermaidRetryLoop backend (conversationContentOf hist) 3 1 3 = (.ok s, n)) :
    generateMermaidRun true hist backend = (.ok s, n) := by
  simp only [generateMermaidRun, Bool.not_true, Bool.false_eq_true, if_false, if_neg hne]
  rw [show mermaidGenerationConfig.maxRetryAttempts = 3 from rfl, hl]

/-- Same, for a loop run ending in `.error`. -/
theorem generateRun_eligible_err (hist : List ChatMessage)
    (backend : Nat → String → BackendOutcome) (e : String) (n : Nat)
    (hne : (hist.filter eligibleMessage).length ≠ 0)
    (hl : mermaidRetryLoop backend (conversationContentOf hist) 3 1 3 = (.error e, n)) :
    generateMermaidRun true hist backend = (.error (handleMermaidGenerationError e), n) := by
  simp only [generateMermaidRun, Bool.not_true, Bool.false_eq_true, if_false, if_neg hne]
  rw [show mermaidGenerationConfig.maxRetryAttempts = 3 from rfl, hl]

/-- C1: whenever the retry orchestrator returns successfully, the returned
value is the literal sentinel `"NO_DIAGRAM"` or a cleaned script accepted by
`validateMermaidScript`. -/
theorem orchestrator_ok_validated (apiKeyValid : Bool) (hist : List ChatMessage)
    (backend : Nat → String → BackendOutcome) (s : String)
    (h : generateMermaidScriptFromConversation apiKeyValid hist backend = .ok s) :
    s = "NO_DIAGRAM" ∨ validateMermaidScript s = true := by
  rw [generateMermaidScriptFromConversation] at h
  cases apiKeyValid with
  | false => simp [generateMermaidRun] at h
  | true =>
    by_cases hf : (hist.filter eligibleMessage).length = 0
    · simp [generateMermaidRun, hf] at h
    · simp only [generateMermaidRun, Bool.not_true, Bool.false_eq_true, if_false,
        if_neg hf] at h
      cases hl : (mermaidRetryLoop backend (conversationContentOf hist)
          mermaidGenerationConfig.maxRetryAttempts 1
          mermaidGenerationConfig.maxRetryAttempts).1 with
      | ok v =>
        rw [hl] at h
        dsimp only at h
        have hv : v = s := by simpa using h
        exact hv ▸ retryLoop_ok_inv backend (conversationContentOf hist) _ _ _ v hl
      | error e =>
        rw [hl] at h
        simp at h

/-- C1 witness. -/
theorem orchestrator_ok_validated_witness :
    ("NO_DIAGRAM" : String) = "NO_DIAGRAM" ∨ validateMermaidScript "NO_DIAGRAM" = true :=
  orchestrator_ok_validated true [⟨ChatRole.user, "hello"⟩]
    (fun _ _ => .text "NO_DIAGRAM") "NO_DIAGRAM" (by rfl)

/-- C5: if attempts before `i` all fail or produce invalid scripts, and the
executor on attempt `i` returns the sentinel, the orchestrator accepts the
sentinel at once: exactly `i` executor invocations, no cleaning/validation of
the sentinel (structurally, the sentinel branch of the loop returns before
`cleanMermaidScript`/`validateMermaidScript` are applied). -/
theorem orchestrator_sentinel_short_circuit (hist : List ChatMessage)
    (backend : Nat → String → BackendOutcome) (i : Nat)
    (hne : (hist.filter eligibleMessage).length ≠ 0)
    (h1 : 1 ≤ i) (h3 : i ≤ mermaidGenerationConfig.maxRetryAttempts)
    (hcont : ∀ j, 1 ≤ j → j < i →
      attemptContinues backend (conversationContentOf hist) j = true)
    (hsent : attemptMermaidGeneration backend (conversationContentOf hist) i =
      .ok "NO_DIAGRAM") :
    generateMermaidRun true hist backend = (.ok "NO_DIAGRAM", i) := by
  have h3' : i ≤ 3 := h3
  interval_cases i
  · exact generateRun_eligible_ok hist backend _ _ hne
      (retryLoop_sentinel backend _ 3 1 2 hsent)
  · refine generateRun_eligible_ok hist backend _ _ hne ?_
    rw [retryLoop_step_continue backend _ 3 1 2 (hcont 1 (by omega) (by omega)) (by omega)]
    rw [retryLoop_sentinel backend _ 3 2 1 hsent]
  · refine generateRun_eligible_ok hist backend _ _ hne ?_
    rw [retryLoop_step_continue backend _ 3 1 2 (hcont 1 (by omega) (by omega)) (by omega)]
    rw [retryLoop_step_continue backend _ 3 2 1 (hcont 2 (by omega) (by omega)) (by omega)]
    rw [retryLoop_sentinel backend _ 3 3 0 hsent]

/-- C5 witness: garbage on attempt 1, sentinel on attempt 2. -/
theorem orchestrator_sentinel_short_circuit_witness :
    generateMermaidRun true [⟨ChatRole.user, "hi"⟩]
      (fun i _ => if i = 1 then .text "garbage" else .text "NO_DIAGRAM") =
      (.ok "NO_DIAGRAM", 2) :=
  orchestrator_sentinel_short_circuit [⟨ChatRole.user, "hi"⟩] _ 2 (by decide)
    (by omega) (by decide)
    (fun j hj1 hj2 => by
      have : j = 1 := by omega
      subst this
      rfl)
    (by rfl)

/-- C2 (amended): when every earlier attempt fails or yields an invalid
script and the final attempt fails because the accumulated response is empty
after trimming, the orchestrator's error message is the literal
`"Empty response received from Gemini API"` — a pass-through that is not a
member of `userMessages`. -/
theorem orchestrator_empty_response_message (hist : List ChatMessage)
    (backend : Nat → String → BackendOutcome)
    (hne : (hist.filter eligibleMessage).length ≠ 0)
    (hcont : ∀ j, 1 ≤ j → j < 3 →
      attemptContinues backend (conversationContentOf hist) j = true)
    (hlast : attemptMermaidGeneration backend (conversationContentOf hist) 3 =
      .error "Empty response received from Gemini API") :
    generateMermaidRun true hist backend =
      (.error "Empty response received from Gemini API", 3) ∧
    userMessagesList.contains "Empty response received from Gemini API" = false := by
  constructor
  · have hrun := generateRun_eligible_err hist backend
      "Empty response received from Gemini API" 3 hne ?loop
    · rw [hrun]
      rfl
    case loop =>
      rw [retryLoop_step_continue backend _ 3 1 2 (hcont 1 (by omega) (by omega)) (by omega)]
      rw [retryLoop_step_continue backend _ 3 2 1 (hcont 2 (by omega) (by omega)) (by omega)]
      rw [retryLoop_final_error backend _ 3 0 _ hlast]
  · decide

/-- C2 witness. -/
theorem orchestrator_empty_response_message_witness :
    generateMermaidRun true [⟨ChatRole.user, "hi"⟩] (fun _ _ => .text "") =
      (.error "Empty response received from Gemini API", 3) ∧
    userMessagesList.contains "Empty response received from Gemini API" = false :=
  orchestrator_empty_response_message [⟨ChatRole.user, "hi"⟩] (fun _ _ => .text "")
    (by decide) (fun j _ _ => rfl) rfl

/-- C2 counterexample to the claim as stated: a run whose terminal failure
message is not a member of the fixed `userMessages` set. -/
theorem orchestrator_failure_message_counterexample :
    generateMermaidScriptFromConversation true [⟨ChatRole.user, "hi"⟩]
      (fun _ _ => .text "") = .error "Empty response received from Gemini API" ∧
    userMessagesList.contains "Empty response received from Gemini API" = false := by
  constructor
  · rfl
  · decide

/-- C3 (amended): only the pre-loop API-key validation short-circuits with
the authentication message and zero attempts; an authentication failure
raised by the backend during an attempt is retried like any other attempt
failure, and is surfaced (still as the authentication message) only after
the full attempt budget. -/
theorem orchestrator_auth_behavior :
    (∀ (hist : List ChatMessage) (backend : Nat → String → BackendOutcome),
      generateMermaidRun false hist backend =
        (.error userMessages.authenticationError, 0)) ∧
    (∀ (hist : List ChatMessage) (backend : Nat → String → BackendOutcome),
      (hist.filter eligibleMessage).length ≠ 0 →
      (∀ j, 1 ≤ j → j ≤ 3 →
        attemptMermaidGeneration backend (conversationContentOf hist) j =
          .error userMessages.authenticationError) →
      generateMermaidRun true hist backend =
        (.error userMessages.authenticationError, 3)) := by
  constructor
  · intro hist backend
    simp [generateMermaidRun]
    rfl
  · intro hist backend hne hj
    have hc : ∀ j, 1 ≤ j → j < 3 →
        attemptContinues backend (conversationContentOf hist) j = true := by
      intro j hj1 hj2
      unfold attemptContinues
      rw [hj j hj1 (by omega)]
    have hrun := generateRun_eligible_err hist backend
      userMessages.authenticationError 3 hne ?loop
    · rw [hrun]
      rfl
    case loop =>
      rw [retryLoop_step_continue backend _ 3 1 2 (hc 1 (by omega) (by omega)) (by omega)]
      rw [retryLoop_step_continue backend _ 3 2 1 (hc 2 (by omega) (by omega)) (by omega)]
      rw [retryLoop_final_error backend _ 3 0 _ (hj 3 (by omega) (by omega))]

/-- C3 witness. -/
theorem orchestrator_auth_behavior_witness :
    generateMermaidRun false [] (fun _ _ => .text "x") =
      (.error userMessages.authenticationError, 0) ∧
    generateMermaidRun true [⟨ChatRole.user, "hi"⟩]
      (fun _ _ => .fail userMessages.authenticationError) =
      (.error userMessages.authenticationError, 3) :=
  ⟨orchestrator_auth_behavior.1 [] (fun _ _ => .text "x"),
    orchestrator_auth_behavior.2 [⟨ChatRole.user, "hi"⟩]
      (fun _ _ => .fail userMessages.authenticationError) (by decide)
      (fun j _ _ => rfl)⟩

/-- C3 counterexample to the claim as stated: the backend rejects
credentials on attempt 1, yet a second attempt is started (2 executor
invocations) and the run even succeeds — the authentication failure is not
surfaced immediately. -/
theorem orchestrator_auth_retried_counterexample :
    (generateMermaidRun true [⟨ChatRole.user, "hi"⟩]
      (fun i _ => if i = 1 then .fail userMessages.authenticationError
        else .text sampleScript)).2 = 2 ∧
    generateMermaidScriptFromConversation true [⟨ChatRole.user, "hi"⟩]
      (fun i _ => if i = 1 then .fail userMessages.authenticationError
        else .text sampleScript) = .ok sampleScript := by
  constructor
  · rfl
  · rfl

/-! ### Prompt-template lemmas (C8) -/

theorem primary_length (X : String) :
    (promptTemplates.primary X).length = (promptTemplates.primary "").length + X.length := by
  simp only [promptTemplates.primary, String.length_append, String.length_empty]
  omega

theorem secondary_length (X : String) :
    (promptTemplates.secondary X).length = (promptTemplates.secondary "").length + X.length := by
  simp only [promptTemplates.secondary, String.length_append, String.length_empty]
  omega

theorem fallback_length (X : String) :
    (promptTemplates.fallback X).length = (promptTemplates.fallback "").length + X.length := by
  simp only [promptTemplates.fallback, String.length_append, String.length_empty]
  omega

set_option maxRecDepth 8000 in
theorem template_base_lengths :
    (promptTemplates.primary "").length ≠ (promptTemplates.secondary "").length ∧
    (promptTemplates.primary "").length ≠ (promptTemplates.fallback "").length ∧
    (promptTemplates.secondary "").length ≠ (promptTemplates.fallback "").length ∧
    0 < (promptTemplates.primary "").length ∧
    0 < (promptTemplates.secondary "").length ∧
    0 < (promptTemplates.fallback "").length := by
  refine ⟨?_, ?_, ?_, ?_, ?_, ?_⟩ <;> decide

theorem str_infix_right (A X : String) : X.data <:+: (A ++ X).data :=
  ⟨A.data, [], by rw [List.append_nil, String.data_append]⟩

theorem str_infix_mid (A X C : String) : X.data <:+: (A ++ X ++ C).data :=
  ⟨A.data, C.data, by rw [String.data_append, String.data_append]⟩

/-- C8: the prompts for attempts 1, 2 and 3 are pairwise distinct nonempty
strings, each containing the conversation text, and every attempt index at
least 3 selects the same prompt as attempt 3. -/
theorem prompt_escalation (X : String) (n : Nat) (h : 3 ≤ n) :
    (getPromptForAttempt 1 X ≠ getPromptForAttempt 2 X ∧
      getPromptForAttempt 1 X ≠ getPromptForAttempt 3 X ∧
      getPromptForAttempt 2 X ≠ getPromptForAttempt 3 X) ∧
    (getPromptForAttempt 1 X ≠ "" ∧ getPromptForAttempt 2 X ≠ "" ∧
      getPromptForAttempt 3 X ≠ "") ∧
    (X.data <:+: (getPromptForAttempt 1 X).data ∧
      X.data <:+: (getPromptForAttempt 2 X).data ∧
      X.data <:+: (getPromptForAttempt 3 X).data) ∧
    getPromptForAttempt n X = getPromptForAttempt 3 X := by
  obtain ⟨h12, h13, h23, hp1, hp2, hp3⟩ := template_base_lengths
  refine ⟨⟨?_, ?_, ?_⟩, ⟨?_, ?_, ?_⟩, ⟨?_, ?_, ?_⟩, ?_⟩
  · intro heq
    have hlen := congrArg String.length heq
    rw [show getPromptForAttempt 1 X = promptTemplates.primary X from rfl,
      show getPromptForAttempt 2 X = promptTemplates.secondary X from rfl,
      primary_length, secondary_length] at hlen
    omega
  · intro heq
    have hlen := congrArg String.length heq
    rw [show getPromptForAttempt 1 X = promptTemplates.primary X from rfl,
      show getPromptForAttempt 3 X = promptTemplates.fallback X from rfl,
      primary_length, fallback_length] at hlen
    omega
  · intro heq
    have hlen := congrArg String.length heq
    rw [show getPromptForAttempt 2 X = promptTemplates.secondary X from rfl,
      show getPromptForAttempt 3 X = promptTemplates.fallback X from rfl,
      secondary_length, fallback_length] at hlen
    omega
  · intro heq
    have hlen := congrArg String.length heq
    rw [show getPromptForAttempt 1 X = promptTemplates.primary X from rfl,
      primary_length] at hlen
    rw [String.length_empty] at hlen
    omega
  · intro heq
    have hlen := congrArg String.length heq
    rw [show getPromptForAttempt 2 X = promptTemplates.secondary X from rfl,
      secondary_length] at hlen
    rw [String.length_empty] at hlen
    omega
  · intro heq
    have hlen := congrArg String.length heq
    rw [show getPromptForAttempt 3 X = promptTemplates.fallback X from rfl,
      fallback_length] at hlen
    rw [String.length_empty] at hlen
    omega
  · exact str_infix_right _ X
  · exact str_infix_mid _ X _
  · exact str_infix_mid _ X _
  · obtain ⟨k, rfl⟩ : ∃ k, n = k + 3 := ⟨n - 3, by omega⟩
    rfl

/-- C8 witness. -/
theorem prompt_escalation_witness :
    (getPromptForAttempt 1 "hello" ≠ getPromptForAttempt 2 "hello" ∧
      getPromptForAttempt 1 "hello" ≠ getPromptForAttempt 3 "hello" ∧
      getPromptForAttempt 2 "hello" ≠ getPromptForAttempt 3 "hello") ∧
    (getPromptForAttempt 1 "hello" ≠ "" ∧ getPromptForAttempt 2 "hello" ≠ "" ∧
      getPromptForAttempt 3 "hello" ≠ "") ∧
    ("hello".data <:+: (getPromptForAttempt 1 "hello").data ∧
      "hello".data <:+: (getPromptForAttempt 2 "hello").data ∧
      "hello".data <:+: (getPromptForAttempt 3 "hello").data) ∧
    getPromptForAttempt 5 "hello" = getPromptForAttempt 3 "hello" :=
  prompt_escalation "hello" 5 (by omega)

theorem stringMk_eq_empty_iff (l : List Char) : String.mk l = "" ↔ l = [] := by
  constructor
  · intro h
    have := congrArg String.data h
    simpa using this
  · intro h
    rw [h]

theorem validate_extract (s : String) (h : validateMermaidScript s = true) :
    s ≠ "" ∧ trimChars s.data ≠ [] ∧ startsWithValidType (trimChars s.data) = true := by
  by_cases hs : s = ""
  · rw [validateMermaidScript, if_pos hs] at h
    exact absurd h (by simp)
  · rw [validateMermaidScript, if_neg hs] at h
    simp only [validateChars] at h
    split at h
    · exact absurd h (by simp)
    · split at h
      · exact absurd h (by simp)
      · next h1 h2 =>
        refine ⟨hs, ?_, ?_⟩
        · intro hnil
          apply h1
          simp [hnil, mermaidGenerationConfig]
        · simpa using h2

theorem validateChars_trim (l : List Char) :
    validateChars (trimChars l) = validateChars l := by
  simp only [validateChars, trimChars_idem]

theorem stripFenceWrap_core (B : List Char) (hB : trimChars B ≠ []) :
    stripFenceWrap ('`':: '`':: '`':: '\n':: (B ++ ['\n','`','`','`'])) = trimChars B := by
  have h5 : ('\n':: (B ++ ['\n','`','`','`'])).reverse =
      '`':: '`':: '`':: '\n':: (B.reverse ++ ['\n']) := by simp
  have h6 : ('\n':: (B.reverse ++ ['\n'])).reverse = '\n' :: (B ++ ['\n']) := by simp
  have h8 : trimChars ('\n' :: (B ++ ['\n'])) = trimChars B := by
    rw [trimChars_cons_ws _ _ (by decide), trimChars_append_ws '\n' B (by decide)]
  simp only [stripFenceWrap]
  simp +decide [isWsChar, List.isPrefixOf, h5, h6, h8, List.isEmpty_iff, hB]

theorem stripFenceWrap_core_mermaid (B : List Char) (hB : trimChars B ≠ []) :
    stripFenceWrap ('`':: '`':: '`':: 'm':: 'e':: 'r':: 'm':: 'a':: 'i':: 'd':: '\n'::
      (B ++ ['\n','`','`','`'])) = trimChars B := by
  have h5 : ('\n':: (B ++ ['\n','`','`','`'])).reverse =
      '`':: '`':: '`':: '\n':: (B.reverse ++ ['\n']) := by simp
  have h6 : ('\n':: (B.reverse ++ ['\n'])).reverse = '\n' :: (B ++ ['\n']) := by simp
  have h8 : trimChars ('\n' :: (B ++ ['\n'])) = trimChars B := by
    rw [trimChars_cons_ws _ _ (by decide), trimChars_append_ws '\n' B (by decide)]
  simp only [stripFenceWrap]
  simp +decide [isWsChar, List.isPrefixOf, h5, h6, h8, List.isEmpty_iff, hB]

theorem lower_cons₂ (t : List Char) (a b : Char) (L : List Char)
    (h : (a :: b :: L) <+: lowerChars t) :
    ∃ c d r, t = c :: d :: r ∧ c.toLower = a ∧ d.toLower = b := by
  cases t with
  | nil => simp [lowerChars] at h
  | cons c t1 =>
    cases t1 with
    | nil =>
      rw [show lowerChars [c] = [c.toLower] from rfl, List.cons_prefix_cons] at h
      exact absurd h.2 (by simp)
    | cons d r =>
      rw [show lowerChars (c :: d :: r) = c.toLower :: d.toLower :: lowerChars r from rfl,
        List.cons_prefix_cons] at h
      obtain ⟨h1, h2⟩ := h
      rw [List.cons_prefix_cons] at h2
      exact ⟨c, d, r, rfl, h1.symm, h2.1.symm⟩

/-- The lowered first two characters of any string accepted by the
diagram-type check fall in the 16 keyword-initial pairs. -/
theorem keyword_first_two (t : List Char) (h : startsWithValidType t = true) :
    ∃ c d r, t = c :: d :: r ∧
      ((c.toLower, d.toLower) = ('g', 'r') ∨ (c.toLower, d.toLower) = ('f', 'l') ∨
       (c.toLower, d.toLower) = ('s', 'e') ∨ (c.toLower, d.toLower) = ('c', 'l') ∨
       (c.toLower, d.toLower) = ('s', 't') ∨ (c.toLower, d.toLower) = ('e', 'r') ∨
       (c.toLower, d.toLower) = ('j', 'o') ∨ (c.toLower, d.toLower) = ('g', 'a') ∨
       (c.toLower, d.toLower) = ('p', 'i') ∨ (c.toLower, d.toLower) = ('q', 'u') ∨
       (c.toLower, d.toLower) = ('r', 'e') ∨ (c.toLower, d.toLower) = ('g', 'i') ∨
       (c.toLower, d.toLower) = ('m', 'i') ∨ (c.toLower, d.toLower) = ('t', 'i') ∨
       (c.toLower, d.toLower) = ('z', 'e') ∨ (c.toLower, d.toLower) = ('s', 'a')) := by
  simp only [startsWithValidType, mermaidGenerationConfig, List.any_cons, List.any_nil,
    Bool.or_eq_true, Bool.or_eq_false_iff, List.isPrefixOf_iff_prefix] at h
  rcases h with h|h|h|h|h|h|h|h|h|h|h|h|h|h|h|(h|h)
  · obtain ⟨c, d, r, ht, h1, h2⟩ := lower_cons₂ t 'g' 'r' _ (by exact h)
    exact ⟨c, d, r, ht, by simp [h1, h2]⟩
  · obtain ⟨c, d, r, ht, h1, h2⟩ := lower_cons₂ t 'f' 'l' _ (by exact h)
    exact ⟨c, d, r, ht, by simp [h1, h2]⟩
  · obtain ⟨c, d, r, ht, h1, h2⟩ := lower_cons₂ t 's' 'e' _ (by exact h)
    exact ⟨c, d, r, ht, by simp [h1, h2]⟩
  · obtain ⟨c, d, r, ht, h1, h2⟩ := lower_cons₂ t 'c' 'l' _ (by exact h)
    exact ⟨c, d, r, ht, by simp [h1, h2]⟩
  · obtain ⟨c, d, r, ht, h1, h2⟩ := lower_cons₂ t 's' 't' _ (by exact h)
    exact ⟨c, d, r, ht, by simp [h1, h2]⟩
  · obtain ⟨c, d, r, ht, h1, h2⟩ := lower_cons₂ t 'e' 'r' _ (by exact h)
    exact ⟨c, d, r, ht, by simp [h1, h2]⟩
  · obtain ⟨c, d, r, ht, h1, h2⟩ := lower_cons₂ t 'j' 'o' _ (by exact h)
    exact ⟨c, d, r, ht, by simp [h1, h2]⟩
  · obtain ⟨c, d, r, ht, h1, h2⟩ := lower_cons₂ t 'g' 'a' _ (by exact h)
    exact ⟨c, d, r, ht, by simp [h1, h2]⟩
  · obtain ⟨c, d, r, ht, h1, h2⟩ := lower_cons₂ t 'p' 'i' _ (by exact h)
    exact ⟨c, d, r, ht, by simp [h1, h2]⟩
  · obtain ⟨c, d, r, ht, h1, h2⟩ := lower_cons₂ t 'q' 'u' _ (by exact h)
    exact ⟨c, d, r, ht, by simp [h1, h2]⟩
  · obtain ⟨c, d, r, ht, h1, h2⟩ := lower_cons₂ t 'r' 'e' _ (by exact h)
    exact ⟨c, d, r, ht, by simp [h1, h2]⟩
  · obtain ⟨c, d, r, ht, h1, h2⟩ := lower_cons₂ t 'g' 'i' _ (by exact h)
    exact ⟨c, d, r, ht, by simp [h1, h2]⟩
  · obtain ⟨c, d, r, ht, h1, h2⟩ := lower_cons₂ t 'm' 'i' _ (by exact h)
    exact ⟨c, d, r, ht, by simp [h1, h2]⟩
  · obtain ⟨c, d, r, ht, h1, h2⟩ := lower_cons₂ t 't' 'i' _ (by exact h)
    exact ⟨c, d, r, ht, by simp [h1, h2]⟩
  · obtain ⟨c, d, r, ht, h1, h2⟩ := lower_cons₂ t 'z' 'e' _ (by exact h)
    exact ⟨c, d, r, ht, by simp [h1, h2]⟩
  · obtain ⟨c, d, r, ht, h1, h2⟩ := lower_cons₂ t 's' 'a' _ (by exact h)
    exact ⟨c, d, r, ht, by simp [h1, h2]⟩
  · exact absurd h (by simp)

/-- None of the conversational-phrase regexes can match a string that starts
with a recognized diagram-type keyword: each fails within its first two
(case-insensitive) pattern characters. -/
theorem stripLeadingPhrases_keyword (t : List Char) (h : startsWithValidType t = true) :
    stripLeadingPhrases t = t := by
  obtain ⟨c, d, r, rfl, hcd⟩ := keyword_first_two t h
  rcases hcd with h'|h'|h'|h'|h'|h'|h'|h'|h'|h'|h'|h'|h'|h'|h'|h' <;>
    (rw [Prod.mk.injEq] at h'; obtain ⟨h1, h2⟩ := h';
     simp +decide [stripLeadingPhrases, applyPhrase, phraseHeres, phraseThisIs,
       phraseGenerated, phraseWorkflow, phraseDiagram, dropCI, h1, h2])

theorem cleanChars_wrap (tag : String) (htag : tag = "" ∨ tag = "mermaid")
    (B : List Char) (hB : trimChars B ≠ [])
    (hkw : startsWithValidType (trimChars B) = true) :
    cleanChars ((wrapFence tag (String.mk B)).data) = trimChars B := by
  rcases htag with rfl | rfl
  · have hdata : (wrapFence "" (String.mk B)).data =
        '`':: '`':: '`':: '\n':: (B ++ ['\n','`','`','`']) := by
      show ("```" ++ "" ++ "\n" ++ String.mk B ++ "\n```").data = _
      rw [String.data_append, String.data_append, String.data_append, String.data_append]
      show ['`','`','`'] ++ [] ++ ['\n'] ++ B ++ ['\n','`','`','`'] = _
      simp
    have htrim : trimChars ('`':: '`':: '`':: '\n':: (B ++ ['\n','`','`','`'])) =
        '`':: '`':: '`':: '\n':: (B ++ ['\n','`','`','`']) :=
      trimChars_eq_self _ '`' '`' ('`':: '`':: '\n':: (B ++ ['\n','`','`']))
        (by simp) (by decide) (by decide)
    rw [cleanChars, hdata, htrim, stripFenceWrap_core B hB,
      stripLeadingPhrases_keyword _ hkw, trimChars_idem]
  · have hdata : (wrapFence "mermaid" (String.mk B)).data =
        '`':: '`':: '`':: 'm':: 'e':: 'r':: 'm':: 'a':: 'i':: 'd':: '\n'::
          (B ++ ['\n','`','`','`']) := by
      show ("```" ++ "mermaid" ++ "\n" ++ String.mk B ++ "\n```").data = _
      rw [String.data_append, String.data_append, String.data_append, String.data_append]
      show ['`','`','`'] ++ ['m','e','r','m','a','i','d'] ++ ['\n'] ++ B ++
        ['\n','`','`','`'] = _
      simp
    have htrim : trimChars ('`':: '`':: '`':: 'm':: 'e':: 'r':: 'm':: 'a':: 'i':: 'd':: '\n'::
        (B ++ ['\n','`','`','`'])) =
        '`':: '`':: '`':: 'm':: 'e':: 'r':: 'm':: 'a':: 'i':: 'd':: '\n'::
          (B ++ ['\n','`','`','`']) :=
      trimChars_eq_self _ '`' '`'
        ('`':: '`':: 'm':: 'e':: 'r':: 'm':: 'a':: 'i':: 'd':: '\n':: (B ++ ['\n','`','`']))
        (by simp) (by decide) (by decide)
    rw [cleanChars, hdata, htrim, stripFenceWrap_core_mermaid B hB,
      stripLeadingPhrases_keyword _ hkw, trimChars_idem]

/-- C7 (amended): for a script the validator accepts, wrapping it in a
fenced code block with no language tag or with the `mermaid` tag (the one
tag the fence regex strips) and then cleaning yields the same validity
verdict as validating the script directly.  For other language tags the
equivalence does not hold in general (see the counterexample, tag
`text`). -/
theorem clean_unwraps_fenced (s : String) (tag : String)
    (htag : tag = "" ∨ tag = "mermaid") (hv : validateMermaidScript s = true) :
    validateMermaidScript (cleanMermaidScript (wrapFence tag s)) =
      validateMermaidScript s := by
  obtain ⟨hs, hne, hkw⟩ := validate_extract s hv
  have hwne : wrapFence tag s ≠ "" := by
    intro h0
    have hlen := congrArg String.length h0
    rw [wrapFence] at hlen
    simp only [String.length_append, String.length_empty,
      show ("```" : String).length = 3 from rfl, show ("\n" : String).length = 1 from rfl,
      show ("\n```" : String).length = 4 from rfl] at hlen
    omega
  have hclean : cleanMermaidScript (wrapFence tag s) = String.mk (trimChars s.data) := by
    rw [cleanMermaidScript, if_neg hwne]
    exact congrArg String.mk (cleanChars_wrap tag htag s.data hne hkw)
  rw [hclean]
  rw [validateMermaidScript]
  rw [if_neg (by
    intro h0
    exact hne ((stringMk_eq_empty_iff _).mp h0))]
  show validateChars (trimChars s.data) = validateMermaidScript s
  rw [validateChars_trim, validateMermaidScript, if_neg hs]

/-- C7 witness. -/
theorem clean_unwraps_fenced_witness :
    validateMermaidScript (cleanMermaidScript (wrapFence "mermaid" sampleScript)) =
      validateMermaidScript sampleScript :=
  clean_unwraps_fenced sampleScript "mermaid" (Or.inr rfl) (by decide)

/-- C7 counterexample to the claim as stated: with the language tag `text`,
the cleaner leaves the tag at the head of the unwrapped text and the verdict
flips from true to false, so cleaning a tagged fenced wrapping does not
always preserve the validity of the enclosed script. -/
theorem clean_unwraps_fenced_counterexample :
    validateMermaidScript sampleScript = true ∧
      validateMermaidScript (cleanMermaidScript (wrapFence "text" sampleScript)) = false := by
  constructor
  · decide
  · decide
